import Mathlib

/-!
Verification of the Sermatec inverter protocol core (frame codec, schema
lookup, reply parsers, parameter write engine and the retrying transport
session) against its natural-language specification.  The Python source in
custom_components/sermatec_inverter is shallowly embedded: byte strings
become lists of naturals below 256, fallible code returns Except or Option,
and the asynchronous socket is replaced by an explicit oracle of per-attempt
events.
-/

namespace Sermatec

/-- Python bytes objects are modelled as lists of naturals; every element of
a value of the Python bytes type is below 256, which theorems carry as an
explicit hypothesis where it matters. -/
abbrev Bytes := List Nat

/-- Clamp a (possibly negative) Python slice bound into an index of a list of
length n, following Python slicing semantics: negative bounds count from the
end, and bounds are clamped into the range 0..n. -/
def pyBound (n : Nat) (i : Int) : Nat :=
  if i < 0 then n - (-i).toNat else min i.toNat n

/-- Python slice l[a:b] (never raises, clamps out-of-range bounds). -/
def pySlice (l : Bytes) (a b : Int) : Bytes :=
  (l.take (pyBound l.length b)).drop (pyBound l.length a)

/-- Python int.from_bytes(l, byteorder="big", signed=False). -/
def fromBytesBE (l : Bytes) : Nat :=
  l.foldl (fun acc b => acc * 256 + b) 0

/-- Python int.from_bytes(l, byteorder="little", signed=False). -/
def fromBytesLE (l : Bytes) : Nat :=
  fromBytesBE l.reverse

/-- Python int.from_bytes(l, byteorder="big", signed=True): two-complement
interpretation of the most significant bit. -/
def fromBytesBESigned (l : Bytes) : Int :=
  let u := fromBytesBE l
  if 2 * u < 256 ^ l.length then (u : Int) else (u : Int) - ((256 ^ l.length : Nat) : Int)

/-- Python int.to_bytes(n, length, byteorder="big", signed=False): raises
OverflowError (modelled as none) unless 0 ≤ n < 256 ^ length. -/
def toBytesBE (n : Int) (length : Nat) : Option Bytes :=
  if 0 ≤ n ∧ n < ((256 ^ length : Nat) : Int) then
    some ((List.range length).reverse.map (fun i => n.toNat / 256 ^ i % 256))
  else none

/-- Look a key up in an association list modelling a Python dict. -/
def pyLookup (l : List (String × α)) (k : String) : Option α :=
  (l.find? (fun p => p.1 == k)).map (fun p => p.2)

/-- Python dict insertion: replace the value in place when the key exists,
otherwise append the binding at the end (dicts keep insertion order). -/
def pyInsert (l : List (String × α)) (k : String) (v : α) : List (String × α) :=
  if l.any (fun p => p.1 == k) then
    l.map (fun p => if p.1 == k then (k, v) else p)
  else
    l ++ [(k, v)]

/-! ## Frame codec (protocol_parser.py)                                     -/

def REQ_SIGNATURE : Bytes := [0xfe, 0x55]

def REQ_APP_ADDRESS : Bytes := [0x64]

def REQ_INVERTER_ADDRESS : Bytes := [0x14]

def REQ_FOOTER : Bytes := [0xae]

/-- SermatecProtocolParser.getResponseCommands: map from a sent command code
to the ordered list of response codes it produces.  Parameter query 0x95 has
two responses, the set commands 0x64, 0x66 and 0x6A have none, every other
command responds with its own code. -/
def getResponseCommands (command : Nat) : List Nat :=
  if command = 0x95 then [0x95, 0x9D]
  else if command = 0x64 then []
  else if command = 0x66 then []
  else if command = 0x6A then []
  else [command]

/-- The accumulator loop of SermatecProtocolParser.__calculateChecksum:
checksum starts at 0x0f and each byte is folded in by
checksum = (checksum & 0xff) ^ byte. -/
def calculateChecksumByte (data : Bytes) : Nat :=
  data.foldl (fun checksum byte => (checksum &&& 0xff) ^^^ byte) 0x0f

/-- SermatecProtocolParser.__calculateChecksum returns the checksum as a
single-byte bytes object (checksum.to_bytes(1, byteorder="little"); for byte
input the accumulator never exceeds 0xff, so the conversion cannot fail). -/
def calculateChecksum (data : Bytes) : Bytes :=
  [calculateChecksumByte data]

/-- The per-frame checks of the loop body of
SermatecProtocolParser.checkResponseIntegrity, in source order: minimal
length 8, signature FE 55, sender (inverter) address 0x14, receiver (app)
address 0x64, single-byte little-endian command code, zero at position 5,
checksum over everything except the last two bytes, and footer 0xAE. -/
def checkOneResponse (response : Bytes) (commandCode : Nat) : Bool :=
  decide (8 ≤ response.length) &&
  (pySlice response 0 2 == REQ_SIGNATURE) &&
  (pySlice response 2 3 == REQ_INVERTER_ADDRESS) &&
  (pySlice response 3 4 == REQ_APP_ADDRESS) &&
  (fromBytesLE (pySlice response 4 5) == commandCode) &&
  (response.getD 5 0 == 0) &&
  (pySlice response (-2) (-1) == calculateChecksum (pySlice response 0 ((response.length : Int) - 2))) &&
  (response.getD (response.length - 1) 0 == 0xae)

/-- A CPython runtime error escaping a function that was supposed to return
a value. -/
inductive PyCrash where
  | unboundLocal
  deriving DecidableEq

/-- SermatecProtocolParser.checkResponseIntegrity.  When the number of
received frames differs from the expected response-command count, the debug
log line in the source evaluates an f-string that reads the variable named
response, which at that point is not bound yet (it is only bound later as
the loop variable of the per-frame loop), so CPython raises
UnboundLocalError there instead of reaching the return False below it. -/
def checkResponseIntegrity (responses : List Bytes) (command : Nat) : Except PyCrash Bool :=
  let responseCommands := getResponseCommands command
  if responses.length ≠ responseCommands.length then
    Except.error PyCrash.unboundLocal
  else
    Except.ok ((responses.zip responseCommands).all (fun p => checkOneResponse p.1 p.2))

/-- SermatecProtocolParser.generateRequest: header, payload, checksum over
everything built so far, fixed footer.  bytearray([...]) raises ValueError
(modelled as none) when the command byte or the payload length byte does not
fit into 0..255. -/
def generateRequest (command : Nat) (payload : Bytes) : Option Bytes :=
  if command < 256 ∧ payload.length < 256 then
    let request := REQ_SIGNATURE ++ REQ_APP_ADDRESS ++ REQ_INVERTER_ADDRESS ++
      [command, 0x00, payload.length] ++ payload
    some (request ++ calculateChecksum request ++ REQ_FOOTER)
  else none

/-- Swap the sender and receiver address bytes (positions 2 and 3) of a
frame, turning a request frame into a response-shaped frame as the spec
describes for the round-trip property. -/
def swapAddresses (frame : Bytes) : Bytes :=
  (frame.set 2 (frame.getD 3 0)).set 3 (frame.getD 2 0)

/-! ## Protocol schema (protocol.json as loaded by protocol_parser.py)      -/

/-- One field descriptor of a command definition in protocol.json.  The keys
name, byteLen and type are read unconditionally by both reply parsers; the
remaining keys are optional in the JSON and modelled as Option.  byteLen and
repeat are stored through int(...), unitValue through float(...); unitValue
is modelled as the exact rational value of the decimal written in the file. -/
structure Field where
  name : String
  byteLen : Int
  type : String
  same : Option Bool := none
  bitPosition : Option Nat := none
  fromBit : Option Nat := none
  endBit : Option Nat := none
  unitValue : Option ℚ := none
  unitType : Option String := none
  deviceClass : Option String := none
  tag : Option String := none
  repeatCount : Option Int := none
  listIgnore : Option Bool := none
  deriving DecidableEq

/-- One command definition of a version entry (keys type, comment, fields;
type is stored as a hex string in the JSON and compared through
int(cmd["type"], base=16), modelled as the parsed code). -/
structure CmdDef where
  type : Nat
  comment : String
  fields : List Field
  deriving DecidableEq

/-- One entry of the osim["versions"] list of protocol.json. -/
structure VersionEntry where
  version : Int
  commands : List CmdDef
  deriving DecidableEq

/-- The ordered version-entry list osim["versions"]. -/
abbrev Osim := List VersionEntry

/-- The loop body of SermatecProtocolParser.__getCommandByVersion: replace
the current candidate by the first command definition of the entry whose
code matches; next(generator, cmd) keeps the previous candidate when nothing
matches. -/
def cmdStep (command : Nat) (cmd : Option CmdDef) (ver : VersionEntry) : Option CmdDef :=
  match ver.commands.find? (fun c => c.type == command) with
  | some c => some c
  | none => cmd

/-- SermatecProtocolParser.__getCommandByVersion: keep the version entries
with version ≤ the requested version, scan them in list order with cmdStep;
a missing final candidate raises CommandNotFoundInProtocol, modelled as
none. -/
def getCommandByVersion (osim : Osim) (command : Nat) (version : Int) : Option CmdDef :=
  (osim.filter (fun ver => decide (ver.version ≤ version))).foldl (cmdStep command) none

/-- A small concrete schema used to exercise the lookup theorem: version 0
and version 300 both define command 0x0c. -/
def osimExample : Osim :=
  [{ version := 0, commands := [{ type := 0x0c, comment := "v0", fields := [] }] },
   { version := 300, commands := [{ type := 0x0c, comment := "v300", fields := [] }] }]

/-! ## Converters and validators (converters.py, validators.py)             -/

/-- The Python values that flow through converters, validators and parsed
fields: ints, floats, booleans and strings. -/
inductive FVal where
  | intV (n : Int)
  | floatV (q : ℚ)
  | boolV (b : Bool)
  | strV (s : String)
  deriving DecidableEq

/-- The numeric value of a Python object, when it has one (True == 1 and
False == 0 in Python). -/
def pyNum : FVal → Option ℚ
  | FVal.intV n => some ((n : ℚ))
  | FVal.floatV q => some q
  | FVal.boolV b => some (if b then 1 else 0)
  | FVal.strV _ => none

/-- Python equality on these values: numbers (ints, floats, booleans)
compare by numeric value, strings compare with strings only. -/
def pyEq (a b : FVal) : Bool :=
  match pyNum a, pyNum b with
  | some x, some y => x == y
  | _, _ =>
      match a, b with
      | FVal.strV s, FVal.strV t => s == t
      | _, _ => false

/-- The converter classes of converters.py: MapConverter holds a raw-to-
friendly table with a default in each direction (its constructor enforces
that the table is injective); DummyConverter passes values through. -/
inductive Converter where
  | map (pairs : List (Int × FVal)) (defaultNotFriendly : Int) (defaultFriendly : FVal)
  | dummy
  deriving DecidableEq

/-- MapConverter.toFriendly (dict lookup with Python equality, falling back
to the friendly default) and DummyConverter.toFriendly. -/
def toFriendly : Converter → FVal → FVal
  | Converter.map pairs _ defaultFriendly, v =>
      match pairs.find? (fun p => pyEq v (FVal.intV p.1)) with
      | some p => p.2
      | none => defaultFriendly
  | Converter.dummy, v => v

/-- MapConverter.fromFriendly (lookup in the inverted table built at
construction time, falling back to the raw default) and
DummyConverter.fromFriendly. -/
def fromFriendly : Converter → FVal → FVal
  | Converter.map pairs defaultNotFriendly _, v =>
      match pairs.find? (fun p => pyEq v p.2) with
      | some p => FVal.intV p.1
      | none => FVal.intV defaultNotFriendly
  | Converter.dummy, v => v

/-- The validator classes of validators.py.  EnumValidator tests membership
in the allowed list with Python equality; IntRangeValidator first requires
the value to be exactly an int (type(value) is int rejects bools and
floats) and then tests the inclusive range. -/
inductive Validator where
  | enum (allowedValues : List Int)
  | intRange (minValue maxValue : Int)
  deriving DecidableEq

def validate : Validator → FVal → Bool
  | Validator.enum allowedValues, v =>
      allowedValues.any (fun a => pyEq v (FVal.intV a))
  | Validator.intRange minValue maxValue, v =>
      match v with
      | FVal.intV n => decide (minValue ≤ n ∧ n ≤ maxValue)
      | _ => false

/-! ## Named converters of SermatecProtocolParser                           -/

def CONVERTER_BATTERY_STATUS : Converter :=
  Converter.map
    [(0x0011, FVal.strV "charging"), (0x0022, FVal.strV "discharging"),
     (0x0033, FVal.strV "stand-by")]
    0x0000 (FVal.strV "unknown")

def CONVERTER_OPERATING_MODE : Converter :=
  Converter.map
    [(0x0001, FVal.strV "General Mode"), (0x0002, FVal.strV "Energy Storage Mode"),
     (0x0003, FVal.strV "Micro-grid"), (0x0004, FVal.strV "Peak-Valley"),
     (0x0005, FVal.strV "AC Coupling")]
    0x0000 (FVal.strV "unknown")

def CONVERTER_EE_BINARY : Converter :=
  Converter.map [(0xee00, FVal.boolV true), (0x00ee, FVal.boolV false)]
    0x0000 (FVal.boolV false)

def CONVERTER_SIMPLE_BINARY : Converter :=
  Converter.map [(1, FVal.boolV true), (0, FVal.boolV false)] 1 (FVal.boolV true)

def CONVERTER_INVERTED_BINARY : Converter :=
  Converter.map [(1, FVal.boolV false), (0, FVal.boolV true)] 1 (FVal.boolV true)

/-- __CONVERTER_ON_OFF: used when converting the friendly on/off value into
the raw byte of the 0x64 set command (0x55 means on, 0xAA means off). -/
def CONVERTER_ON_OFF : Converter :=
  Converter.map [(0x55, FVal.boolV true), (0xaa, FVal.boolV false)] 0x00 (FVal.boolV false)

def CONVERTER_MODEL_CODE : Converter :=
  Converter.map
    [(0x0001, FVal.strV "10 kW"), (0x0002, FVal.strV "5 kW"),
     (0x0003, FVal.strV "6 kW"), (0x0005, FVal.strV "3 kW")]
    0x0000 (FVal.strV "unknown")

def CONVERTER_BATTERY_MANUFACTURER : Converter :=
  Converter.map
    [(1, FVal.strV "No battery"), (2, FVal.strV "PylonTech High Voltage Battery"),
     (3, FVal.strV "PylonTech Low Voltage Battery"), (4, FVal.strV "BYD"),
     (5, FVal.strV "Chaowei"), (6, FVal.strV "HDXN"), (7, FVal.strV "YWLN"),
     (9, FVal.strV "XPGY"), (10, FVal.strV "WOTAI"), (11, FVal.strV "RuiPu"),
     (12, FVal.strV "Cairi High Voltage"), (13, FVal.strV "Cairi Low Voltage"),
     (14, FVal.strV "Dyness High Voltage"), (15, FVal.strV "Dyness Low Voltage"),
     (16, FVal.strV "DLG Low Voltage"), (17, FVal.strV "Wotai Low Voltage"),
     (18, FVal.strV "SHDL"), (19, FVal.strV "GuangYu"), (20, FVal.strV "FeiBo"),
     (21, FVal.strV "NJSG"), (22, FVal.strV "BYD High Voltage"),
     (23, FVal.strV "BYD Low Voltage"), (24, FVal.strV "METERBOOST"),
     (25, FVal.strV "AOBO"), (26, FVal.strV "DLG High Voltage"),
     (27, FVal.strV "Soluna Low Voltage"), (28, FVal.strV "Soluna 3K")]
    0 (FVal.strV "unknown")

def CONVERTER_BATTERY_TYPE : Converter :=
  Converter.map
    [(1, FVal.strV "Lithium battery"), (2, FVal.strV "Lead-acid battery"),
     (3, FVal.strV "Flow battery")]
    0 (FVal.strV "unknown")

def CONVERTER_METER_PROTOCOL : Converter :=
  Converter.map
    [(1, FVal.strV "Not installed"), (2, FVal.strV "Acrel Three-phase meter"),
     (3, FVal.strV "Acrel Single-phase meter"), (4, FVal.strV "Eastron Three-phase meter"),
     (5, FVal.strV "Eastron Single-phase meter")]
    0 (FVal.strV "unknown")

def CONVERTER_AC_OP_STATUS : Converter :=
  Converter.map
    [(0, FVal.strV "not running"), (1, FVal.strV "self-check"),
     (2, FVal.strV "standby"), (3, FVal.strV "on-grid"), (4, FVal.strV "off-grid"),
     (5, FVal.strV "backup mode")]
    0 (FVal.strV "unknown")

def CONVERTER_AC_OP_MODE : Converter :=
  Converter.map
    [(1, FVal.strV "MPPT mode"), (2, FVal.strV "Constant current mode"),
     (3, FVal.strV "PV constant voltage mode"), (4, FVal.strV "AC rectification mode"),
     (5, FVal.strV "Secondary constant current mode"), (6, FVal.strV "Constant DC power mode"),
     (7, FVal.strV "Constant AC power mode"), (0, FVal.strV "unknown mode")]
    0 (FVal.strV "unknown mode")

/-- NAME_BASED_FIELD_PARSERS: converters keyed by the original (not
translated) field name from protocol.json. -/
def NAME_BASED_FIELD_PARSERS : List (String × Converter) :=
  [("Charge and discharge status", CONVERTER_BATTERY_STATUS),
   ("Operating mode", CONVERTER_OPERATING_MODE),
   ("model code", CONVERTER_MODEL_CODE),
   ("Battery manufacturer number (code list)", CONVERTER_BATTERY_MANUFACTURER),
   ("Battery communication protocol selection", CONVERTER_BATTERY_MANUFACTURER),
   ("DC side battery type", CONVERTER_BATTERY_TYPE),
   ("Meter communication protocol selection", CONVERTER_METER_PROTOCOL),
   ("Three-phase unbalanced output", CONVERTER_EE_BINARY),
   ("Meter detection function", CONVERTER_EE_BINARY),
   ("battery warning", CONVERTER_SIMPLE_BINARY),
   ("battery error", CONVERTER_SIMPLE_BINARY),
   ("Battery communication connection status", CONVERTER_INVERTED_BINARY),
   ("AC side operation mode", CONVERTER_AC_OP_STATUS),
   ("AC side running status", CONVERTER_AC_OP_MODE)]

/-! ## Parameter write engine (SERMATEC_PARAMETERS and Sermatec.set)        -/

/-- SermatecProtocolParser.SermatecParameter: the write descriptor of one
settable tag.  The Python friendlyType attribute (a type object used only by
the terminal UI) and the min/max attributes of number parameters (display
hints; the validator repeats the range) are not part of the model. -/
structure SermatecParameter where
  command : Nat
  byteLength : Nat
  converter : Converter
  validator : Validator
  shouldBeOff : Bool
  deriving DecidableEq

def onOffParameter : SermatecParameter :=
  { command := 0x64, byteLength := 1, converter := CONVERTER_ON_OFF,
    validator := Validator.enum [0x55, 0xaa], shouldBeOff := false }

def operatingModeParameter : SermatecParameter :=
  { command := 0x66, byteLength := 2, converter := CONVERTER_OPERATING_MODE,
    validator := Validator.enum [0x1, 0x2, 0x3, 0x4, 0x5], shouldBeOff := false }

def antiBackflowParameter : SermatecParameter :=
  { command := 0x66, byteLength := 2, converter := CONVERTER_EE_BINARY,
    validator := Validator.enum [0xee00, 0x00ee], shouldBeOff := true }

def socParameter : SermatecParameter :=
  { command := 0x66, byteLength := 2, converter := Converter.dummy,
    validator := Validator.intRange 10 100, shouldBeOff := false }

def SERMATEC_PARAMETERS : List (String × SermatecParameter) :=
  [("onOff", onOffParameter), ("operatingMode", operatingModeParameter),
   ("antiBackflow", antiBackflowParameter), ("soc", socParameter)]

/-- The ordered tag list concatenated by build66Payload. -/
def SERMATEC_66_TAGS : List String :=
  ["price1", "price2", "price3", "price4", "con", "chargePower", "operatingMode",
   "gridSwitch", "adjustMethod", "antiBackflow", "batteryCharge", "soc"]

/-- SermatecProtocolParser.build66Payload: concatenate the raw bytes of the
fixed tag sequence from the snapshot and append two zero bytes; any missing
tag raises MissingTaggedData (none). -/
def build66Payload (taggedData : List (String × Bytes)) : Option Bytes := do
  let parts ← SERMATEC_66_TAGS.mapM (fun t => pyLookup taggedData t)
  return parts.flatten ++ [0x00, 0x00]

/-- SermatecProtocolParser.build64Payload: the raw bytes of the onOff tag;
a missing tag raises MissingTaggedData (none). -/
def build64Payload (taggedData : List (String × Bytes)) : Option Bytes :=
  pyLookup taggedData "onOff"

/-- SermatecProtocolParser.isInverterOff. -/
def isInverterOff (value : Bytes) : Bool :=
  value == [0xaa]

/-- The exceptions Sermatec.set can raise before handing the payload to the
transport (typeError and overflowError stand for the unhandled Python
errors int.to_bytes would raise; they are unreachable for values the
validators accept). -/
inductive SetErr where
  | parameterNotFound
  | valueError
  | missingTaggedData
  | inverterIsNotOff
  | commandNotFoundInProtocol
  | typeError
  | overflowError
  deriving DecidableEq

/-- The tail of Sermatec.set: dispatch on the descriptor command, building
the 0x66 or 0x64 payload (MissingTaggedData when a required tag is absent)
and rejecting any other command code with CommandNotFoundInProtocol. -/
def setBuildPayload (command : Nat) (taggedDataToSend : List (String × Bytes)) :
    Except SetErr (Nat × Bytes × List (String × Bytes)) :=
  if command = 0x66 then
    match build66Payload taggedDataToSend with
    | some payload => Except.ok (command, payload, taggedDataToSend)
    | none => Except.error SetErr.missingTaggedData
  else if command = 0x64 then
    match build64Payload taggedDataToSend with
    | some payload => Except.ok (command, payload, taggedDataToSend)
    | none => Except.error SetErr.missingTaggedData
  else Except.error SetErr.commandNotFoundInProtocol

/-- Sermatec.set up to the point where the assembled payload is handed to
__sendQuery (the transport is modelled separately): resolve the tag in
SERMATEC_PARAMETERS, convert the friendly value, validate it, store its
big-endian encoding into the snapshot dict (the Python code mutates the
caller's dict in place, so the later onOff check sees the updated dict),
enforce the shouldBeOff precondition, and build the per-command payload.
Returns the command code, the payload and the updated snapshot. -/
def set (tag : String) (value : FVal) (previousData : List (String × Bytes)) :
    Except SetErr (Nat × Bytes × List (String × Bytes)) :=
  match pyLookup SERMATEC_PARAMETERS tag with
  | none => Except.error SetErr.parameterNotFound
  | some parameterInfo =>
    let convertedValue := fromFriendly parameterInfo.converter value
    if validate parameterInfo.validator convertedValue = false then
      Except.error SetErr.valueError
    else
      match convertedValue with
      | FVal.intV n =>
        match toBytesBE n parameterInfo.byteLength with
        | none => Except.error SetErr.overflowError
        | some encoded =>
          let taggedDataToSend := pyInsert previousData tag encoded
          if parameterInfo.shouldBeOff then
            match pyLookup taggedDataToSend "onOff" with
            | none => Except.error SetErr.missingTaggedData
            | some onOffValue =>
              if isInverterOff onOffValue then
                setBuildPayload parameterInfo.command taggedDataToSend
              else
                Except.error SetErr.inverterIsNotOff
          else
            setBuildPayload parameterInfo.command taggedDataToSend
      | _ => Except.error SetErr.typeError

/-! ## Transport session (sermatec_inverter/__init__.py)                    -/

/-- What the network makes one query attempt of Sermatec.__sendQueryAttempt
observe: the frame write times out or is reset by the peer, one of the
response reads times out or is reset, or all reads complete and deliver the
given list of frames.  The read events are collapsed over the read index,
which the connected flag and control flow do not depend on. -/
inductive AttemptEvent where
  | writeTimeout
  | writeReset
  | readTimeout
  | readReset
  | frames (fs : List Bytes)
  deriving DecidableEq

/-- The exceptions Sermatec.__sendQueryAttempt can raise. -/
inductive AttemptErr where
  | sendTimeout
  | recvTimeout
  | integrityFail
  | connReset
  | pythonCrash
  deriving DecidableEq

/-- The exceptions Sermatec.__sendQuery can raise. -/
inductive QueryErr where
  | notConnected
  | communicationError
  | connectionReset
  | pythonCrash
  deriving DecidableEq

/-- The piece of Sermatec state the transport layer touches. -/
structure Session where
  connected : Bool
  pcuVersion : Int
  deriving DecidableEq

def QUERY_ATTEMPTS : Nat := 5

/-- Sermatec.__sendQueryAttempt: a write timeout raises SendTimeout and a
read timeout raises RecvTimeout, both leaving the connected flag alone; a
connection reset during write or read clears the connected flag and
re-raises ConnectionResetError; when all reads complete, a response count
mismatch clears the flag and raises ConnectionResetError (defensive dead
code: the read loop always appends exactly responsesCount chunks), and
otherwise checkResponseIntegrity decides between returning the frames and
raising FailedResponseIntegrityCheck.  A crash escaping the integrity check
would propagate as an unhandled exception (pythonCrash), but cannot happen
here because the frame count was already checked. -/
def sendQueryAttempt (command : Nat) (responsesCount : Nat) (e : AttemptEvent)
    (conn : Bool) : Except AttemptErr (List Bytes) × Bool :=
  match e with
  | AttemptEvent.writeTimeout => (Except.error AttemptErr.sendTimeout, conn)
  | AttemptEvent.writeReset => (Except.error AttemptErr.connReset, false)
  | AttemptEvent.readTimeout => (Except.error AttemptErr.recvTimeout, conn)
  | AttemptEvent.readReset => (Except.error AttemptErr.connReset, false)
  | AttemptEvent.frames fs =>
      if fs.length ≠ responsesCount then (Except.error AttemptErr.connReset, false)
      else
        match checkResponseIntegrity fs command with
        | Except.error _ => (Except.error AttemptErr.pythonCrash, conn)
        | Except.ok true => (Except.ok fs, conn)
        | Except.ok false => (Except.error AttemptErr.integrityFail, conn)

/-- The retry loop of Sermatec.__sendQuery: SendTimeout, RecvTimeout and
FailedResponseIntegrityCheck are swallowed and the next attempt starts;
ConnectionResetError is re-raised immediately; success breaks out of the
loop; a non-fatal failure on the last attempt (empty remaining event list)
raises CommunicationError. -/
def sendQueryGo (command : Nat) (responsesCount : Nat) :
    List AttemptEvent → Bool → Except QueryErr (List Bytes) × Bool
  | [], conn => (Except.error QueryErr.communicationError, conn)
  | e :: rest, conn =>
      match sendQueryAttempt command responsesCount e conn with
      | (Except.ok fs, c) => (Except.ok fs, c)
      | (Except.error AttemptErr.sendTimeout, c) => sendQueryGo command responsesCount rest c
      | (Except.error AttemptErr.recvTimeout, c) => sendQueryGo command responsesCount rest c
      | (Except.error AttemptErr.integrityFail, c) => sendQueryGo command responsesCount rest c
      | (Except.error AttemptErr.connReset, c) => (Except.error QueryErr.connectionReset, c)
      | (Except.error AttemptErr.pythonCrash, c) => (Except.error QueryErr.pythonCrash, c)

/-- Sermatec.__sendQuery: refuse when not connected, build the request once,
then run up to QUERY_ATTEMPTS attempts against the supplied event oracle.
generateRequest failing (ValueError from bytearray) would propagate as an
unhandled exception. -/
def sendQuery (command : Nat) (payload : Bytes) (events : List AttemptEvent)
    (s : Session) : Except QueryErr (List Bytes) × Session :=
  if s.connected then
    match generateRequest command payload with
    | none => (Except.error QueryErr.pythonCrash, s)
    | some _ =>
        let r := sendQueryGo command (getResponseCommands command).length
          (events.take QUERY_ATTEMPTS) s.connected
        (r.1, { s with connected := r.2 })
  else (Except.error QueryErr.notConnected, s)

/-- The attempt events that Sermatec.__sendQuery swallows and retries: a
send timeout, a receive timeout, or a complete read whose frames fail the
integrity check (with the frame count the attempt always delivers). -/
def nonFatalEvent (command : Nat) (e : AttemptEvent) : Bool :=
  match e with
  | AttemptEvent.writeTimeout => true
  | AttemptEvent.readTimeout => true
  | AttemptEvent.writeReset => false
  | AttemptEvent.readReset => false
  | AttemptEvent.frames fs =>
      decide (fs.length = (getResponseCommands command).length) &&
      (match checkResponseIntegrity fs command with
       | Except.ok false => true
       | _ => false)

/-! ## Reply parsers (parseReply and parseParameterReply)                   -/

def REPLY_OFFSET_DATA : Int := 7

/-- The Python errors the reply parsers can raise.  keyError covers reading
a dict key that is absent (fromBit or endBit of a bitRange field whose
explicit malformed check is dead code, and applying a name-based converter
to a field that decoded no value); typeError and overflowError stand for the
errors int.to_bytes would raise. -/
inductive ParseErr where
  | commandNotFoundInProtocol
  | protocolFileMalformed
  | keyError
  | unicodeError
  | typeError
  | overflowError
  deriving DecidableEq

/-- Tag derivation of parseReply:
re.sub(r"[^A-Za-z0-9]", "_", name).lower(). -/
def tagFromName (name : String) : String :=
  String.mk (name.data.map (fun c => if c.isAlpha || c.isDigit then c.toLower else '_'))

/-- The unit-to-device-class table of parseReply (the temperature unit is
the mojibake string as written in the source). -/
def deviceClassOfUnit (u : String) : Option String :=
  if u = "V" then some "VOLTAGE"
  else if u = "W" then some "POWER"
  else if u = "VA" then some "APPARENT_POWER"
  else if u = "A" then some "CURRENT"
  else if u = "var" then some "REACTIVE_POWER"
  else if u = "Â°C" then some "TEMPERATURE"
  else if u = "Hz" then some "FREQUENCY"
  else none

/-- Count how many decimal digits it takes until q * 10 ^ n is integral
(fuelled by the denominator, which is ample for decimal fractions). -/
def decimalDigitsAux : Nat → ℚ → Nat
  | 0, _ => 0
  | fuel + 1, q => if q.den = 1 then 0 else decimalDigitsAux fuel (q * 10) + 1

/-- __getMultiplierDecimalPlaces for a float multiplier: the digit count
after the decimal point in str(multiplier); Python floats print at least one
fractional digit (str(2.0) is "2.0"). -/
def floatDecimalPlaces (q : ℚ) : Nat :=
  max 1 (decimalDigitsAux q.den q)

/-- Python round to integer: banker's rounding (round half to even). -/
def roundHalfEven (q : ℚ) : Int :=
  let f := Int.floor q
  let r := q - (f : ℚ)
  if r < 1 / 2 then f
  else if 1 / 2 < r then f + 1
  else if f % 2 = 0 then f else f + 1

/-- Python round(x, ndigits) on exact decimal values. -/
def pyRound (q : ℚ) (ndigits : Nat) : ℚ :=
  ((roundHalfEven (q * 10 ^ ndigits) : ℚ)) / 10 ^ ndigits

/-- round(raw * fieldMultiplier, decimal places of the multiplier): with no
unitValue the multiplier is the int 1, so the rounded value stays the int
itself; with a unitValue the value becomes a float rounded to the
multiplier's printed fractional digit count. -/
def scaledValue (raw : Int) (unitValue : Option ℚ) : FVal :=
  match unitValue with
  | none => FVal.intV raw
  | some q => FVal.floatV (pyRound ((raw : ℚ) * q) (floatDecimalPlaces q))

/-- One output entry of parseReply (the newField dict): display name,
optional unit and device class, the decoded value when not in dry-run mode,
and the listIgnore marker. -/
structure NewField where
  name : String
  unit : Option String := none
  device_class : Option String := none
  value : Option FVal := none
  listIgnore : Bool := false
  deriving DecidableEq

/-- The per-kind value decoding of parseReply (big-endian throughout); the
Bool result records whether the field kind was unsupported, which makes
parseReply skip (not store) the field instead of raising. -/
def decodeFieldValue (field : Field) (fieldBitPosition fieldFromBit fieldEndBit : Nat)
    (currentFieldData : Bytes) : Except ParseErr (Option FVal × Bool) :=
  if field.type = "int" then
    Except.ok (some (scaledValue (fromBytesBESigned currentFieldData) field.unitValue), false)
  else if field.type = "uInt" then
    Except.ok (some (scaledValue ((fromBytesBE currentFieldData : Int)) field.unitValue), false)
  else if field.type = "string" then
    let trimmedString := currentFieldData.takeWhile (fun b => b ≠ 0)
    if trimmedString.all (fun b => b < 128) then
      Except.ok (some (FVal.strV (String.mk (trimmedString.map (fun b => Char.ofNat b)))), false)
    else Except.error ParseErr.unicodeError
  else if field.type = "bit" then
    Except.ok (some (FVal.boolV
      (decide (fromBytesBE currentFieldData &&& (1 <<< fieldBitPosition) ≠ 0))), false)
  else if field.type = "bitRange" then
    Except.ok (some (FVal.intV
      (((fromBytesBE currentFieldData) >>> fieldFromBit) &&&
        ((1 <<< (fieldEndBit - fieldFromBit)) - 1))), false)
  else if field.type = "hex" then
    Except.ok (some (FVal.intV (fromBytesBE currentFieldData)), false)
  else if field.type = "preserve" then
    Except.ok (none, false)
  else if field.type = "long" then
    Except.ok (some (scaledValue (fromBytesBESigned currentFieldData) field.unitValue), false)
  else
    Except.ok (none, true)

/-- The field loop of SermatecProtocolParser.parseReply.  Cursor handling:
same resets to the previous field start; the cursor advances by the
(repeat-multiplied) declared length whether or not the field is stored.
Field validation: the membership check of the source tests only the name key
(its or-chain is a truthy string literal) which the model always carries; a
non-positive byteLen is ProtocolFileMalformed; a bit field without
bitPosition is ProtocolFileMalformed; a bitRange field reads fromBit and
endBit unconditionally (KeyError when absent - the explicit check is dead).
Values are decoded only when not in dry-run mode, then piped through the
name-based converter when the raw field name has one (KeyError when the
field decoded no value); fields with repeat, preserve fields, and fields of
unsupported kind outside dry-run are excluded from the output. -/
def parseReplyGo (translations : List (String × String)) (reply : Bytes) (dryrun : Bool) :
    List Field → List (String × NewField) → Int → Int →
      Except ParseErr (List (String × NewField))
  | [], parsedData, _, _ => Except.ok parsedData
  | field :: rest, parsedData, pos0, prevReplyPosition =>
    let replyPosition := if field.same.getD false then prevReplyPosition else pos0
    if field.byteLen < 1 then Except.error ParseErr.protocolFileMalformed
    else
      let fieldLength := field.byteLen
      let bitPos : Except ParseErr Nat :=
        if field.type = "bit" then
          match field.bitPosition with
          | some bp => Except.ok bp
          | none => Except.error ParseErr.protocolFileMalformed
        else Except.ok 0
      match bitPos with
      | Except.error e => Except.error e
      | Except.ok fieldBitPosition =>
        let fromB : Except ParseErr Nat :=
          if field.type = "bitRange" then
            match field.fromBit with
            | some fb => Except.ok fb
            | none => Except.error ParseErr.keyError
          else Except.ok 0
        match fromB with
        | Except.error e => Except.error e
        | Except.ok fieldFromBit =>
          let endB : Except ParseErr Nat :=
            if field.type = "bitRange" then
              match field.endBit with
              | some eb => Except.ok eb
              | none => Except.error ParseErr.keyError
            else Except.ok 0
          match endB with
          | Except.error e => Except.error e
          | Except.ok fieldEndBit =>
            let fieldTag := tagFromName field.name
            let fieldName := (pyLookup translations field.name).getD field.name
            let unit0 : Option String := if field.type = "bit" then some "binary" else none
            let unit1 : Option String :=
              match field.unitType with
              | some u => some u
              | none => unit0
            let dc0 : Option String :=
              match field.unitType with
              | some u => deviceClassOfUnit u
              | none => none
            let dc1 : Option String :=
              match field.deviceClass with
              | some d => some d
              | none => dc0
            let decoded : Except ParseErr (Option FVal × Bool) :=
              if dryrun then Except.ok (none, false)
              else
                decodeFieldValue field fieldBitPosition fieldFromBit fieldEndBit
                  (pySlice reply replyPosition (replyPosition + fieldLength))
            match decoded with
            | Except.error e => Except.error e
            | Except.ok (value0, unsupported) =>
              let converted : Except ParseErr (Option FVal) :=
                if dryrun then Except.ok value0
                else
                  match pyLookup NAME_BASED_FIELD_PARSERS field.name with
                  | none => Except.ok value0
                  | some conv =>
                      match value0 with
                      | none => Except.error ParseErr.keyError
                      | some v => Except.ok (some (toFriendly conv v))
              match converted with
              | Except.error e => Except.error e
              | Except.ok value1 =>
                let fieldLength2 :=
                  match field.repeatCount with
                  | some r => fieldLength * r
                  | none => fieldLength
                let ignoreField :=
                  (match field.repeatCount with | some _ => true | none => false) ||
                  (field.type = "preserve") || unsupported
                let newField : NewField :=
                  { name := fieldName, unit := unit1, device_class := dc1,
                    value := value1, listIgnore := field.listIgnore.getD false }
                let parsedData2 :=
                  if ignoreField then parsedData else pyInsert parsedData fieldTag newField
                parseReplyGo translations reply dryrun rest parsedData2
                  (replyPosition + fieldLength2) replyPosition

/-- SermatecProtocolParser.parseReply: look the command up for the version
(CommandNotFoundInProtocol when absent) and decode the fields starting at
the fixed data offset 7. -/
def parseReply (osim : Osim) (translations : List (String × String)) (command : Nat)
    (version : Int) (reply : Bytes) (dryrun : Bool) :
    Except ParseErr (List (String × NewField)) :=
  match getCommandByVersion osim command version with
  | none => Except.error ParseErr.commandNotFoundInProtocol
  | some cmd => parseReplyGo translations reply dryrun cmd.fields [] REPLY_OFFSET_DATA 0

/-- The bytes parseParameterReply stores for one field, from the source: a
bit field needs bitPosition (ProtocolFileMalformed otherwise); when it also
carries the tag onOff, the extracted bit is mapped through
__CONVERTER_ON_OFF.fromFriendly and re-encoded with int.to_bytes (one
big-endian byte); every other field keeps its raw slice. -/
def paramStoredBytes (field : Field) (rawFieldData : Bytes) : Except ParseErr Bytes :=
  if field.type = "bit" then
    match field.bitPosition with
    | none => Except.error ParseErr.protocolFileMalformed
    | some fieldBitPosition =>
      let convertedBytes := fromBytesBE rawFieldData
      let extractedBit := decide (convertedBytes &&& (1 <<< fieldBitPosition) ≠ 0)
      if field.tag = some "onOff" then
        match fromFriendly CONVERTER_ON_OFF (FVal.boolV extractedBit) with
        | FVal.intV n =>
          match toBytesBE n 1 with
          | some b => Except.ok b
          | none => Except.error ParseErr.overflowError
        | _ => Except.error ParseErr.typeError
      else Except.ok rawFieldData
  else Except.ok rawFieldData

/-- The storage rule in the words of the spec sentence under test: the field
of kind bit carrying the tag onOff stores exactly the single byte 0x55 when
the extracted bit is set and 0xAA when it is clear; every other field stores
its unmodified raw byte slice. -/
def paramStoredBytesClaimed (field : Field) (rawFieldData : Bytes) : Except ParseErr Bytes :=
  if field.type = "bit" then
    match field.bitPosition with
    | none => Except.error ParseErr.protocolFileMalformed
    | some fieldBitPosition =>
      if field.tag = some "onOff" then
        Except.ok
          (if fromBytesBE rawFieldData &&& (1 <<< fieldBitPosition) ≠ 0
            then [0x55] else [0xaa])
      else Except.ok rawFieldData
  else Except.ok rawFieldData

/-- The field loop of SermatecProtocolParser.parseParameterReply,
parameterized by the per-field storage rule (the source rule or the claimed
one): same cursor handling as parseReply, raw bytes stored under the
explicit write tag, fields with repeat and preserve fields excluded, cursor
advanced by the repeat-multiplied declared length. -/
def parseParameterReplyGoWith (stored : Field → Bytes → Except ParseErr Bytes)
    (reply : Bytes) :
    List Field → List (String × Bytes) → Int → Int →
      Except ParseErr (List (String × Bytes))
  | [], parsedData, _, _ => Except.ok parsedData
  | field :: rest, parsedData, pos0, prevReplyPosition =>
    let replyPosition := if field.same.getD false then prevReplyPosition else pos0
    if field.byteLen < 1 then Except.error ParseErr.protocolFileMalformed
    else
      let fieldLength := field.byteLen
      match stored field (pySlice reply replyPosition (replyPosition + fieldLength)) with
      | Except.error e => Except.error e
      | Except.ok rawFieldData =>
        let fieldLength2 :=
          match field.repeatCount with
          | some r => fieldLength * r
          | none => fieldLength
        let ignoreField :=
          (match field.repeatCount with | some _ => true | none => false) ||
          (field.type = "preserve")
        let parsedData2 :=
          match field.tag with
          | some t => if ignoreField then parsedData else pyInsert parsedData t rawFieldData
          | none => parsedData
        parseParameterReplyGoWith stored reply rest parsedData2
          (replyPosition + fieldLength2) replyPosition

/-- SermatecProtocolParser.parseParameterReply. -/
def parseParameterReply (osim : Osim) (command : Nat) (version : Int) (reply : Bytes) :
    Except ParseErr (List (String × Bytes)) :=
  match getCommandByVersion osim command version with
  | none => Except.error ParseErr.commandNotFoundInProtocol
  | some cmd =>
      parseParameterReplyGoWith paramStoredBytes reply cmd.fields [] REPLY_OFFSET_DATA 0

/-- parseParameterReply with the storage rule of the spec sentence. -/
def parseParameterReplyClaimed (osim : Osim) (command : Nat) (version : Int)
    (reply : Bytes) : Except ParseErr (List (String × Bytes)) :=
  match getCommandByVersion osim command version with
  | none => Except.error ParseErr.commandNotFoundInProtocol
  | some cmd =>
      parseParameterReplyGoWith paramStoredBytesClaimed reply cmd.fields [] REPLY_OFFSET_DATA 0

/-- A schema exercising the skip-unsupported-kind behavior of parseReply:
command 0x42 has a well-formed uInt field, then a field of the unsupported
kind foo, then a hex field. -/
def osimUnsupportedField : Osim :=
  [{ version := 0,
     commands := [{ type := 0x42, comment := "test",
                    fields := [{ name := "alpha", byteLen := 2, type := "uInt" },
                               { name := "mystery", byteLen := 2, type := "foo" },
                               { name := "beta", byteLen := 1, type := "hex" }] }] }]

/-- A live reply frame for the 0x42 test command: 7 header bytes, then the
field data 01 02 (alpha), aa bb (mystery), 05 (beta). -/
def replyUnsupportedField : Bytes :=
  [0xfe, 0x55, 0x14, 0x64, 0x42, 0x00, 0x05, 0x01, 0x02, 0xaa, 0xbb, 0x05]

/-! ## Lemmas about the frame codec                                         -/

theorem foldl_checksum_eq_xorFold (data : Bytes) :
    ∀ s : Nat, s < 256 → (∀ b ∈ data, b < 256) →
      data.foldl (fun checksum byte => (checksum &&& 0xff) ^^^ byte) s =
      data.foldl (fun acc byte => acc ^^^ byte) s := by
  induction data with
  | nil => intro s _ _; rfl
  | cons a l ih =>
    intro s hs hb
    have ha : a < 256 := hb a (List.mem_cons_self a l)
    have hand : s &&& 0xff = s := by
      have h := Nat.and_pow_two_sub_one_eq_mod s 8
      norm_num at h
      rw [h]
      exact Nat.mod_eq_of_lt hs
    have hxor : s ^^^ a < 256 := by
      have h8 : (256 : Nat) = 2 ^ 8 := by norm_num
      rw [h8] at hs ha ⊢
      exact Nat.xor_lt_two_pow hs ha
    simp only [List.foldl_cons, hand]
    exact ih (s ^^^ a) hxor (fun b hbmem => hb b (List.mem_cons_of_mem a hbmem))

/-- For genuine byte input the checksum loop of __calculateChecksum is the
plain XOR-fold seeded with 0x0f: the & 0xff mask never truncates anything. -/
theorem calculateChecksumByte_eq_xorFold (data : Bytes) (h : ∀ b ∈ data, b < 256) :
    calculateChecksumByte data = data.foldl (fun acc byte => acc ^^^ byte) 0x0f :=
  foldl_checksum_eq_xorFold data 0x0f (by norm_num) h

theorem xorFold_swap34 (s a b c d : Nat) (t : Bytes) :
    (a::b::c::d::t).foldl (fun acc byte => acc ^^^ byte) s =
    (a::b::d::c::t).foldl (fun acc byte => acc ^^^ byte) s := by
  simp only [List.foldl_cons]
  have h : ((s ^^^ a) ^^^ b) ^^^ c ^^^ d = ((s ^^^ a) ^^^ b) ^^^ d ^^^ c := by
    rw [Nat.xor_assoc, Nat.xor_comm c d, ← Nat.xor_assoc]
  rw [h]

theorem pySlice_sig (a b c d e f g : Nat) (q : Bytes) :
    pySlice (a::b::c::d::e::f::g::q) 0 2 = [a, b] := by
  have hb2 : pyBound (a::b::c::d::e::f::g::q).length 2 = 2 := by
    simp [pyBound]
  have hb0 : pyBound (a::b::c::d::e::f::g::q).length 0 = 0 := by
    simp [pyBound]
  simp only [pySlice, hb2, hb0]
  rfl

theorem pySlice_sender (a b c d e f g : Nat) (q : Bytes) :
    pySlice (a::b::c::d::e::f::g::q) 2 3 = [c] := by
  have hb3 : pyBound (a::b::c::d::e::f::g::q).length 3 = 3 := by
    simp [pyBound]
  have hb2 : pyBound (a::b::c::d::e::f::g::q).length 2 = 2 := by
    simp [pyBound]
  simp only [pySlice, hb3, hb2]
  rfl

theorem pySlice_receiver (a b c d e f g : Nat) (q : Bytes) :
    pySlice (a::b::c::d::e::f::g::q) 3 4 = [d] := by
  have hb4 : pyBound (a::b::c::d::e::f::g::q).length 4 = 4 := by
    simp [pyBound]
  have hb3 : pyBound (a::b::c::d::e::f::g::q).length 3 = 3 := by
    simp [pyBound]
  simp only [pySlice, hb4, hb3]
  rfl

theorem pySlice_command (a b c d e f g : Nat) (q : Bytes) :
    pySlice (a::b::c::d::e::f::g::q) 4 5 = [e] := by
  have hb5 : pyBound (a::b::c::d::e::f::g::q).length 5 = 5 := by
    simp [pyBound]
  have hb4 : pyBound (a::b::c::d::e::f::g::q).length 4 = 4 := by
    simp [pyBound]
  simp only [pySlice, hb5, hb4]
  rfl

theorem pySlice_checksumByte (a b c d e f g x y : Nat) (p : Bytes) :
    pySlice (a::b::c::d::e::f::g::(p ++ [x, y])) (-2) (-1) = [x] := by
  have hlen : (a::b::c::d::e::f::g::(p ++ [x, y])).length = p.length + 9 := by simp
  have hb1 : pyBound (a::b::c::d::e::f::g::(p ++ [x, y])).length (-1) = p.length + 8 := by
    rw [hlen]; simp [pyBound]
  have hb2 : pyBound (a::b::c::d::e::f::g::(p ++ [x, y])).length (-2) = p.length + 7 := by
    rw [hlen]; simp [pyBound]
  simp only [pySlice, hb1, hb2]
  have hsplit : a::b::c::d::e::f::g::(p ++ [x, y]) =
      ((a::b::c::d::e::f::g::p) ++ [x]) ++ [y] := by simp
  rw [hsplit, List.take_left' (by simp), List.drop_left' (by simp)]

theorem pySlice_checksummed (a b c d e f g x y : Nat) (p : Bytes) :
    pySlice (a::b::c::d::e::f::g::(p ++ [x, y])) 0
        (((a::b::c::d::e::f::g::(p ++ [x, y])).length : Int) - 2) =
      a::b::c::d::e::f::g::p := by
  have hlen : (a::b::c::d::e::f::g::(p ++ [x, y])).length = p.length + 9 := by simp
  have hb0 : pyBound (a::b::c::d::e::f::g::(p ++ [x, y])).length 0 = 0 := by
    simp [pyBound]
  have hb : pyBound (a::b::c::d::e::f::g::(p ++ [x, y])).length
      (((a::b::c::d::e::f::g::(p ++ [x, y])).length : Int) - 2) = p.length + 7 := by
    rw [hlen]
    unfold pyBound
    rw [if_neg (by push_cast; omega)]
    omega
  simp only [pySlice, hb0, hb]
  have hsplit : a::b::c::d::e::f::g::(p ++ [x, y]) =
      (a::b::c::d::e::f::g::p) ++ [x, y] := by simp
  rw [hsplit, List.take_left' (by simp), List.drop_zero]

theorem getD_footer (a b c d e f g x y : Nat) (p : Bytes) :
    (a::b::c::d::e::f::g::(p ++ [x, y])).getD
      ((a::b::c::d::e::f::g::(p ++ [x, y])).length - 1) 0 = y := by
  have hlen : (a::b::c::d::e::f::g::(p ++ [x, y])).length = p.length + 9 := by simp
  have hsplit : a::b::c::d::e::f::g::(p ++ [x, y]) =
      ((a::b::c::d::e::f::g::p) ++ [x]) ++ [y] := by simp
  rw [hlen, hsplit, List.getD_append_right _ _ _ _ (by simp)]
  simp

theorem getD_zeroByte (a b c d e f g : Nat) (q : Bytes) :
    (a::b::c::d::e::f::g::q).getD 5 0 = f := rfl

/-- Every byte of a generated request frame is below 256 (needed to relate
the masked checksum loop with the plain XOR-fold). -/
theorem requestPrefix_bytes_lt (command n : Nat) (payload : Bytes)
    (hc : command < 256) (hn : n < 256) (hb : ∀ b ∈ payload, b < 256) :
    ∀ b ∈ (0xfe::0x55::0x64::0x14::command::0x00::n::payload : Bytes), b < 256 := by
  intro b hbmem
  simp only [List.mem_cons] at hbmem
  rcases hbmem with h | h | h | h | h | h | h | h
  all_goals first
    | (subst h; omega)
    | (exact hb b h)

theorem swappedPrefix_bytes_lt (command n : Nat) (payload : Bytes)
    (hc : command < 256) (hn : n < 256) (hb : ∀ b ∈ payload, b < 256) :
    ∀ b ∈ (0xfe::0x55::0x14::0x64::command::0x00::n::payload : Bytes), b < 256 := by
  intro b hbmem
  simp only [List.mem_cons] at hbmem
  rcases hbmem with h | h | h | h | h | h | h | h
  all_goals first
    | (subst h; omega)
    | (exact hb b h)

theorem fromBytesLE_singleton (b : Nat) : fromBytesLE [b] = b := by
  simp [fromBytesLE, fromBytesBE]

theorem getResponseCommands_eq_self (command : Nat)
    (h : command ∉ ([0x95, 0x64, 0x66, 0x6A] : List Nat)) :
    getResponseCommands command = [command] := by
  simp only [List.mem_cons, List.not_mem_nil, or_false, not_or] at h
  obtain ⟨h1, h2, h3, h4⟩ := h
  simp [getResponseCommands, h1, h2, h3, h4]

/-- Closed form of a successfully generated request frame, with the checksum
still written through the source checksum function. -/
theorem generateRequest_eq (command : Nat) (payload : Bytes)
    (hc : command < 256) (hl : payload.length < 256) :
    generateRequest command payload =
      some (0xfe::0x55::0x64::0x14::command::0x00::payload.length::(payload ++
        [calculateChecksumByte
          (0xfe::0x55::0x64::0x14::command::0x00::payload.length::payload), 0xae])) := by
  simp only [generateRequest, if_pos (And.intro hc hl)]
  simp [REQ_SIGNATURE, REQ_APP_ADDRESS, REQ_INVERTER_ADDRESS, REQ_FOOTER, calculateChecksum]

/-- C3: generateRequest returns exactly
FE 55 64 14 command 00 len(payload) payload checksum AE, the checksum byte
being the XOR-fold of all preceding frame bytes from the seed 0x0f (a running
XOR, not a complemented sum); as a Lean function it is deterministic and
pure by construction. -/
theorem generateRequest_frame_layout (command : Nat) (payload : Bytes)
    (hc : command < 256) (hl : payload.length ≤ 255) (hb : ∀ b ∈ payload, b < 256) :
    generateRequest command payload =
      some (0xfe::0x55::0x64::0x14::command::0x00::payload.length::(payload ++
        [(0xfe::0x55::0x64::0x14::command::0x00::payload.length::payload).foldl
          (fun acc byte => acc ^^^ byte) 0x0f, 0xae])) := by
  rw [generateRequest_eq command payload hc (by omega)]
  rw [calculateChecksumByte_eq_xorFold _
    (requestPrefix_bytes_lt command payload.length payload hc (by omega) hb)]

theorem generateRequest_frame_layout_witness :
    generateRequest 0x98 [1, 2] = some [0xfe, 0x55, 0x64, 0x14, 0x98, 0x00, 0x02, 1, 2, 0x4d, 0xae] := by
  rw [generateRequest_frame_layout 0x98 [1, 2] (by norm_num) (by norm_num) (by decide)]
  rfl

/-- C1 (code bug): whenever the number of response frames differs from the
length of the expected response-code list, checkResponseIntegrity does not
return False: the mismatch branch crashes with UnboundLocalError, because
its debug log f-string reads the per-frame loop variable before the loop has
bound it. -/
theorem checkResponseIntegrity_count_mismatch_crashes (responses : List Bytes) (command : Nat)
    (h : responses.length ≠ (getResponseCommands command).length) :
    checkResponseIntegrity responses command = Except.error PyCrash.unboundLocal := by
  simp only [checkResponseIntegrity]
  rw [if_pos h]

theorem checkResponseIntegrity_count_mismatch_crashes_witness :
    checkResponseIntegrity [[0xfe, 0x55]] 0x95 = Except.error PyCrash.unboundLocal :=
  checkResponseIntegrity_count_mismatch_crashes [[0xfe, 0x55]] 0x95 (by decide)

/-- C2 counterexample: for the write command 0x64 (empty expected
response-code list) the round trip does not validate: the single swapped
request frame trips the count-mismatch branch, which does not even return
False but crashes. -/
theorem generateRequest_roundtrip_cex :
    checkResponseIntegrity [swapAddresses ((generateRequest 0x64 []).getD [])] 0x64 ≠
        Except.ok true ∧
      checkResponseIntegrity [swapAddresses ((generateRequest 0x64 []).getD [])] 0x64 =
        Except.error PyCrash.unboundLocal :=
  ⟨fun h => Except.noConfusion h, rfl⟩

/-- C2 (amended): for every command code below 256 other than 0x95, 0x64,
0x66 and 0x6A (those whose expected response-code list is not the single
code itself) and every payload of at most 255 bytes, validating the one
frame built by generateRequest with its sender and receiver address bytes
swapped succeeds. -/
theorem generateRequest_roundtrip (command : Nat) (payload : Bytes)
    (hc : command < 256) (hcmd : command ∉ ([0x95, 0x64, 0x66, 0x6A] : List Nat))
    (hl : payload.length ≤ 255) (hb : ∀ b ∈ payload, b < 256) :
    ∃ frame, generateRequest command payload = some frame ∧
      checkResponseIntegrity [swapAddresses frame] command = Except.ok true := by
  refine ⟨_, generateRequest_eq command payload hc (by omega), ?_⟩
  have hrc := getResponseCommands_eq_self command hcmd
  have hswap : swapAddresses (0xfe::0x55::0x64::0x14::command::0x00::payload.length::(payload ++
      [calculateChecksumByte
        (0xfe::0x55::0x64::0x14::command::0x00::payload.length::payload), 0xae])) =
      0xfe::0x55::0x14::0x64::command::0x00::payload.length::(payload ++
      [calculateChecksumByte
        (0xfe::0x55::0x64::0x14::command::0x00::payload.length::payload), 0xae]) := rfl
  rw [hswap]
  simp only [checkResponseIntegrity, hrc]
  rw [if_neg (by simp)]
  suffices hone : checkOneResponse
      (0xfe::0x55::0x14::0x64::command::0x00::payload.length::(payload ++
        [calculateChecksumByte
          (0xfe::0x55::0x64::0x14::command::0x00::payload.length::payload), 0xae])) command = true by
    simp [hone]
  have hks : calculateChecksumByte
      (0xfe::0x55::0x64::0x14::command::0x00::payload.length::payload) =
      calculateChecksumByte
      (0xfe::0x55::0x14::0x64::command::0x00::payload.length::payload) := by
    rw [calculateChecksumByte_eq_xorFold _
          (requestPrefix_bytes_lt command payload.length payload hc (by omega) hb),
        calculateChecksumByte_eq_xorFold _
          (swappedPrefix_bytes_lt command payload.length payload hc (by omega) hb)]
    exact xorFold_swap34 0x0f 0xfe 0x55 0x64 0x14 (command::0x00::payload.length::payload)
  rw [checkOneResponse, pySlice_sig, pySlice_sender, pySlice_receiver, pySlice_command,
    pySlice_checksumByte, pySlice_checksummed, getD_footer, getD_zeroByte,
    fromBytesLE_singleton]
  simp [REQ_SIGNATURE, REQ_INVERTER_ADDRESS, REQ_APP_ADDRESS, calculateChecksum, hks]

theorem generateRequest_roundtrip_witness :
    ∃ frame, generateRequest 0x98 [3, 4] = some frame ∧
      checkResponseIntegrity [swapAddresses frame] 0x98 = Except.ok true :=
  generateRequest_roundtrip 0x98 [3, 4] (by norm_num) (by decide) (by norm_num) (by decide)

/-- C10: generateRequest yields a frame exactly for payloads of at most 255
bytes; then the payload-length byte (frame position 6) equals the payload
length, while any longer payload makes the bytearray construction raise
ValueError (no frame is returned). -/
theorem generateRequest_payload_length (command : Nat) (payload : Bytes)
    (hc : command < 256) :
    (payload.length ≤ 255 →
      ∃ frame, generateRequest command payload = some frame ∧
        frame.getD 6 0 = payload.length) ∧
    (255 < payload.length → generateRequest command payload = none) := by
  constructor
  · intro hl
    refine ⟨_, generateRequest_eq command payload hc (by omega), rfl⟩
  · intro hl
    simp only [generateRequest]
    rw [if_neg (by omega)]

/-! ## Lemmas and theorems about the schema lookup                          -/

theorem cmdScan_eq_none (command : Nat) :
    ∀ (L : List VersionEntry) (acc : Option CmdDef),
      L.foldl (cmdStep command) acc = none ↔
        acc = none ∧ ∀ v ∈ L, v.commands.find? (fun c => c.type == command) = none := by
  intro L
  induction L with
  | nil => intro acc; simp
  | cons v L ih =>
    intro acc
    simp only [List.foldl_cons]
    rw [ih]
    constructor
    · rintro ⟨hstep, hall⟩
      cases hfind : v.commands.find? (fun c => c.type == command) with
      | some c => simp [cmdStep, hfind] at hstep
      | none =>
        simp only [cmdStep, hfind] at hstep
        refine ⟨hstep, fun w hw => ?_⟩
        rcases List.mem_cons.mp hw with h | h
        · exact h ▸ hfind
        · exact hall w h
    · rintro ⟨hacc, hall⟩
      have hv := hall v (List.mem_cons_self v L)
      refine ⟨?_, fun w hw => hall w (List.mem_cons_of_mem _ hw)⟩
      simp [cmdStep, hv, hacc]

theorem cmdScan_eq_some (command : Nat) (c : CmdDef) :
    ∀ L : List VersionEntry, L.Pairwise (fun a b => a.version < b.version) →
      L.foldl (cmdStep command) none = some c →
      ∃ v ∈ L, v.commands.find? (fun d => d.type == command) = some c ∧
        ∀ w ∈ L, w.commands.find? (fun d => d.type == command) ≠ none →
          w.version ≤ v.version := by
  intro L
  induction L using List.reverseRecOn with
  | nil => intro _ h; simp at h
  | append_singleton M v ih =>
    intro hs h
    rw [List.foldl_append, List.foldl_cons, List.foldl_nil] at h
    have hMp : M.Pairwise (fun a b => a.version < b.version) :=
      (List.pairwise_append.mp hs).1
    have hlt : ∀ a ∈ M, a.version < v.version := by
      intro a ha
      exact (List.pairwise_append.mp hs).2.2 a ha v (by simp)
    cases hfind : v.commands.find? (fun d => d.type == command) with
    | some d =>
      simp only [cmdStep, hfind] at h
      refine ⟨v, by simp, by rw [hfind, h], fun w hw _ => ?_⟩
      rcases List.mem_append.mp hw with hmem | hmem
      · exact le_of_lt (hlt w hmem)
      · rw [List.mem_singleton.mp hmem]
    | none =>
      simp only [cmdStep, hfind] at h
      obtain ⟨v0, hv0, hfind0, hmax0⟩ := ih hMp h
      refine ⟨v0, List.mem_append_left _ hv0, hfind0, fun w hw hwmatch => ?_⟩
      rcases List.mem_append.mp hw with hmem | hmem
      · exact hmax0 w hmem hwmatch
      · rw [List.mem_singleton.mp hmem] at hwmatch
        exact absurd hfind hwmatch

/-- C4: over a schema whose version entries are ordered by strictly
increasing version, the lookup resolves to the definition held by the
highest version entry whose version is at most the requested version and
which defines the command, and yields the CommandNotFoundInProtocol error
(none) exactly when no entry with version at most the requested version
defines the command. -/
theorem getCommandByVersion_spec (osim : Osim) (command : Nat) (version : Int)
    (hsorted : osim.Pairwise (fun a b => a.version < b.version)) :
    (getCommandByVersion osim command version = none ↔
      ∀ ver ∈ osim, ver.version ≤ version → ∀ c ∈ ver.commands, c.type ≠ command) ∧
    (∀ c, getCommandByVersion osim command version = some c →
      ∃ ver ∈ osim, ver.version ≤ version ∧
        ver.commands.find? (fun d => d.type == command) = some c ∧
        ∀ ver2 ∈ osim, ver2.version ≤ version →
          (∃ d ∈ ver2.commands, d.type = command) → ver2.version ≤ ver.version) := by
  constructor
  · rw [getCommandByVersion, cmdScan_eq_none]
    simp only [true_and]
    constructor
    · intro hall ver hmem hver c hc
      have hv := hall ver (List.mem_filter.mpr ⟨hmem, by simpa using hver⟩)
      have := List.find?_eq_none.mp hv c hc
      simpa using this
    · intro hall v hv
      obtain ⟨hmem, hver⟩ := List.mem_filter.mp hv
      refine List.find?_eq_none.mpr (fun c hc => ?_)
      have := hall v hmem (by simpa using hver) c hc
      simpa using this
  · intro c h
    rw [getCommandByVersion] at h
    obtain ⟨v, hv, hfind, hmax⟩ :=
      cmdScan_eq_some command c _ (hsorted.filter _) h
    obtain ⟨hmem, hver⟩ := List.mem_filter.mp hv
    refine ⟨v, hmem, by simpa using hver, hfind, fun ver2 h2mem h2ver h2match => ?_⟩
    obtain ⟨d, hd, hdtype⟩ := h2match
    refine hmax ver2 (List.mem_filter.mpr ⟨h2mem, by simpa using h2ver⟩) (fun hnone => ?_)
    have := List.find?_eq_none.mp hnone d hd
    simp [hdtype] at this

theorem getCommandByVersion_spec_witness :
    (getCommandByVersion osimExample 0x0c 400 = none ↔
      ∀ ver ∈ osimExample, ver.version ≤ 400 → ∀ c ∈ ver.commands, c.type ≠ 0x0c) ∧
    (∀ c, getCommandByVersion osimExample 0x0c 400 = some c →
      ∃ ver ∈ osimExample, ver.version ≤ 400 ∧
        ver.commands.find? (fun d => d.type == 0x0c) = some c ∧
        ∀ ver2 ∈ osimExample, ver2.version ≤ 400 →
          (∃ d ∈ ver2.commands, d.type = 0x0c) → ver2.version ≤ ver.version) :=
  getCommandByVersion_spec osimExample 0x0c 400 (by decide)

/-! ## Lemmas and theorems about the reply parsers                          -/

/-- C8 (code bug): a live (non-dry-run) reply whose command definition holds
a field of the unsupported kind foo decodes successfully; the unsupported
field is skipped (ignoreField is set and the loop moves on) while the
docstring of parseReply promises a ParsingNotImplemented exception, which no
code path raises. -/
theorem parseReply_unsupported_kind_skipped :
    parseReply osimUnsupportedField [] 0x42 0 replyUnsupportedField false =
      Except.ok [("alpha", { name := "alpha", value := some (FVal.intV 258) }),
                 ("beta", { name := "beta", value := some (FVal.intV 5) })] := rfl

theorem paramStoredBytes_eq_claimed (field : Field) (raw : Bytes) :
    paramStoredBytes field raw = paramStoredBytesClaimed field raw := by
  by_cases hb : field.type = "bit"
  · cases hbp : field.bitPosition with
    | none => simp [paramStoredBytes, paramStoredBytesClaimed, hb, hbp]
    | some bp =>
      by_cases ht : field.tag = some "onOff"
      · by_cases hbit : fromBytesBE raw &&& (1 <<< bp) ≠ 0
        · have hd : decide (fromBytesBE raw &&& (1 <<< bp) ≠ 0) = true :=
            decide_eq_true hbit
          simp only [paramStoredBytes, paramStoredBytesClaimed, hb, hbp, ht, hd,
            if_pos, if_true, ite_true, eq_self_iff_true]
          rw [if_pos hbit]
          rfl
        · have hz : fromBytesBE raw &&& (1 <<< bp) = 0 := not_ne_iff.mp hbit
          have hd : decide (fromBytesBE raw &&& (1 <<< bp) ≠ 0) = false := by
            simp [hz]
          simp only [paramStoredBytes, paramStoredBytesClaimed, hb, hbp, ht, hd,
            if_pos, if_true, ite_true, eq_self_iff_true]
          rw [if_neg hbit]
          rfl
      · simp [paramStoredBytes, paramStoredBytesClaimed, hb, hbp, ht]
  · simp [paramStoredBytes, paramStoredBytesClaimed, hb]

theorem parseParameterReplyGoWith_congr
    (stored1 stored2 : Field → Bytes → Except ParseErr Bytes)
    (hst : ∀ f raw, stored1 f raw = stored2 f raw) (reply : Bytes) :
    ∀ (fields : List Field) (acc : List (String × Bytes)) (pos prev : Int),
      parseParameterReplyGoWith stored1 reply fields acc pos prev =
        parseParameterReplyGoWith stored2 reply fields acc pos prev := by
  intro fields
  induction fields with
  | nil => intro acc pos prev; rfl
  | cons field rest ih =>
    intro acc pos prev
    simp only [parseParameterReplyGoWith]
    by_cases hlen : field.byteLen < 1
    · rw [if_pos hlen, if_pos hlen]
    · rw [if_neg hlen, if_neg hlen, hst field]
      cases stored2 field
          (pySlice reply (if field.same.getD false then prev else pos)
            ((if field.same.getD false then prev else pos) + field.byteLen)) with
      | error e => rfl
      | ok rawFieldData => exact ih _ _ _

/-- C9: parseParameterReply stores fields exactly as the spec sentence says:
the bit-kind field tagged onOff is stored as the converter image of its
extracted bit, which is the single raw byte 0x55 when the bit is set and
0xAA when it is clear, and every other kept field is stored as its
unmodified raw byte slice of declared length; formally the source parser
equals the parser written with that storage rule. -/
theorem parseParameterReply_eq_claimed (osim : Osim) (command : Nat) (version : Int)
    (reply : Bytes) :
    parseParameterReply osim command version reply =
      parseParameterReplyClaimed osim command version reply := by
  rw [parseParameterReply, parseParameterReplyClaimed]
  cases getCommandByVersion osim command version with
  | none => rfl
  | some cmd =>
    exact parseParameterReplyGoWith_congr paramStoredBytes paramStoredBytesClaimed
      paramStoredBytes_eq_claimed reply cmd.fields [] REPLY_OFFSET_DATA 0

/-! ## Lemmas and theorems about the parameter write engine                 -/

theorem pyLookup_pyInsert_ne {α : Type} (l : List (String × α)) (k j : String) (v : α)
    (h : k ≠ j) : pyLookup (pyInsert l k v) j = pyLookup l j := by
  have hkj : (k == j) = false := beq_eq_false_iff_ne.mpr h
  rw [pyInsert]
  split
  · rw [pyLookup, pyLookup]
    have hmap : ∀ m : List (String × α),
        (m.map (fun p => if p.1 == k then (k, v) else p)).find? (fun p => p.1 == j) =
          m.find? (fun p => p.1 == j) := by
      intro m
      induction m with
      | nil => rfl
      | cons p m ih =>
        by_cases hp : p.1 = k
        · simp only [List.map_cons, List.find?]
          rw [if_pos (by simp [hp])]
          simp only [hkj, hp]
          exact ih
        · simp only [List.map_cons, List.find?]
          rw [if_neg (by simp [hp])]
          cases hq : (p.1 == j) with
          | true => rfl
          | false => exact ih
    rw [hmap]
  · rw [pyLookup, pyLookup, List.find?_append]
    have hlast : ([(k, v)] : List (String × α)).find? (fun p => p.1 == j) = none := by
      simp [List.find?, hkj]
    rw [hlast]
    cases l.find? (fun p => p.1 == j) <;> rfl

/-- In SERMATEC_PARAMETERS the only descriptor with the shouldBeOff
precondition is antiBackflow. -/
theorem shouldBeOff_forces_antiBackflow (tag : String) (p : SermatecParameter)
    (h : pyLookup SERMATEC_PARAMETERS tag = some p) (hs : p.shouldBeOff = true) :
    tag = "antiBackflow" ∧ p = antiBackflowParameter := by
  by_cases h1 : tag = "onOff"
  · subst h1
    rw [show pyLookup SERMATEC_PARAMETERS "onOff" = some onOffParameter from rfl] at h
    injection h with h2
    rw [← h2] at hs
    exact absurd hs (by decide)
  by_cases h2 : tag = "operatingMode"
  · subst h2
    rw [show pyLookup SERMATEC_PARAMETERS "operatingMode" = some operatingModeParameter
      from rfl] at h
    injection h with h3
    rw [← h3] at hs
    exact absurd hs (by decide)
  by_cases h3 : tag = "antiBackflow"
  · subst h3
    rw [show pyLookup SERMATEC_PARAMETERS "antiBackflow" = some antiBackflowParameter
      from rfl] at h
    injection h with h4
    exact ⟨rfl, h4.symm⟩
  by_cases h4 : tag = "soc"
  · subst h4
    rw [show pyLookup SERMATEC_PARAMETERS "soc" = some socParameter from rfl] at h
    injection h with h5
    rw [← h5] at hs
    exact absurd hs (by decide)
  · have b1 : ("onOff" == tag) = false := beq_eq_false_iff_ne.mpr (Ne.symm h1)
    have b2 : ("operatingMode" == tag) = false := beq_eq_false_iff_ne.mpr (Ne.symm h2)
    have b3 : ("antiBackflow" == tag) = false := beq_eq_false_iff_ne.mpr (Ne.symm h3)
    have b4 : ("soc" == tag) = false := beq_eq_false_iff_ne.mpr (Ne.symm h4)
    rw [show SERMATEC_PARAMETERS =
      [("onOff", onOffParameter), ("operatingMode", operatingModeParameter),
       ("antiBackflow", antiBackflowParameter), ("soc", socParameter)] from rfl] at h
    simp [pyLookup, List.find?, b1, b2, b3, b4] at h

theorem fromFriendly_map_intV (c : Converter) (v : FVal)
    (h : ∃ pairs d f, c = Converter.map pairs d f) :
    ∃ n, fromFriendly c v = FVal.intV n := by
  obtain ⟨pairs, d, f, rfl⟩ := h
  rw [fromFriendly]
  cases pairs.find? (fun p => pyEq v p.2) with
  | some p => exact ⟨p.1, rfl⟩
  | none => exact ⟨d, rfl⟩

theorem validate_enum_intV (allowed : List Int) (n : Int)
    (h : validate (Validator.enum allowed) (FVal.intV n) = true) : n ∈ allowed := by
  simp only [validate, List.any_eq_true] at h
  obtain ⟨a, ha, hpe⟩ := h
  simp only [pyEq, pyNum, beq_iff_eq] at hpe
  have : n = a := by exact_mod_cast hpe
  rw [this]
  exact ha

theorem setBuildPayload_ne_inverterIsNotOff (command : Nat)
    (d : List (String × Bytes)) :
    setBuildPayload command d ≠ Except.error SetErr.inverterIsNotOff := by
  rw [setBuildPayload]
  split
  · cases build66Payload d <;> simp
  · split
    · cases build64Payload d <;> simp
    · simp

/-- Unfolding of set for the antiBackflow tag once the converted value is
known to be a validated integer: execution reaches the shouldBeOff
precondition check against the updated snapshot. -/
theorem set_antiBackflow_step (v : FVal) (snap : List (String × Bytes)) (n : Int)
    (enc : Bytes)
    (hconv : fromFriendly antiBackflowParameter.converter v = FVal.intV n)
    (hvalid : validate antiBackflowParameter.validator (FVal.intV n) = true)
    (htb : toBytesBE n antiBackflowParameter.byteLength = some enc) :
    set "antiBackflow" v snap =
      (match pyLookup (pyInsert snap "antiBackflow" enc) "onOff" with
       | none => Except.error SetErr.missingTaggedData
       | some onOffValue =>
           if isInverterOff onOffValue then
             setBuildPayload antiBackflowParameter.command
               (pyInsert snap "antiBackflow" enc)
           else Except.error SetErr.inverterIsNotOff) := by
  simp only [set,
    show pyLookup SERMATEC_PARAMETERS "antiBackflow" = some antiBackflowParameter from rfl,
    hconv, hvalid, htb]
  rw [if_neg (by simp)]
  rfl

/-- C7 counterexample: a value the antiBackflow validator rejects makes set
raise ValueError before the shouldBeOff precondition is consulted, although
the tag resolves to a shouldBeOff descriptor and the snapshot has no onOff
entry (the claim promises MissingTaggedData there). -/
theorem set_shouldBeOff_cex :
    antiBackflowParameter.shouldBeOff = true ∧
    pyLookup SERMATEC_PARAMETERS "antiBackflow" = some antiBackflowParameter ∧
    pyLookup ([] : List (String × Bytes)) "onOff" = none ∧
    set "antiBackflow" (FVal.intV 5) [] = Except.error SetErr.valueError ∧
    set "antiBackflow" (FVal.intV 5) [] ≠ Except.error SetErr.missingTaggedData := by
  refine ⟨rfl, rfl, rfl, rfl, fun h => ?_⟩
  rw [show set "antiBackflow" (FVal.intV 5) [] = Except.error SetErr.valueError from rfl] at h
  injection h with h2
  exact SetErr.noConfusion h2

/-- C7 (amended): for every call of set whose friendly value converts to a
raw value accepted by the descriptor's validator and whose tag resolves to a
descriptor with shouldBeOff set (antiBackflow is the only one): a snapshot
with no onOff entry yields MissingTaggedData, and a snapshot whose onOff raw
value is anything but the single off byte 0xAA yields InverterIsNotOff.  For
descriptors with shouldBeOff unset no such check happens: set never raises
InverterIsNotOff for them (an invalid value raises ValueError before the
precondition is consulted, which is the one correction to the claim). -/
theorem set_shouldBeOff_spec :
    (∀ (tag : String) (p : SermatecParameter) (v : FVal) (snap : List (String × Bytes)),
      pyLookup SERMATEC_PARAMETERS tag = some p → p.shouldBeOff = true →
      validate p.validator (fromFriendly p.converter v) = true →
      pyLookup snap "onOff" = none →
      set tag v snap = Except.error SetErr.missingTaggedData) ∧
    (∀ (tag : String) (p : SermatecParameter) (v : FVal) (snap : List (String × Bytes))
      (b : Bytes),
      pyLookup SERMATEC_PARAMETERS tag = some p → p.shouldBeOff = true →
      validate p.validator (fromFriendly p.converter v) = true →
      pyLookup snap "onOff" = some b → b ≠ [0xaa] →
      set tag v snap = Except.error SetErr.inverterIsNotOff) ∧
    (∀ (tag : String) (p : SermatecParameter) (v : FVal) (snap : List (String × Bytes)),
      pyLookup SERMATEC_PARAMETERS tag = some p → p.shouldBeOff = false →
      set tag v snap ≠ Except.error SetErr.inverterIsNotOff) := by
  refine ⟨?_, ?_, ?_⟩
  · intro tag p v snap hlook hsoff hvalid hsnap
    obtain ⟨htag, hp⟩ := shouldBeOff_forces_antiBackflow tag p hlook hsoff
    subst htag
    subst hp
    obtain ⟨n, hconv⟩ := fromFriendly_map_intV antiBackflowParameter.converter v ⟨_, _, _, rfl⟩
    have hvalid2 : validate antiBackflowParameter.validator (FVal.intV n) = true :=
      hconv ▸ hvalid
    have hn : n ∈ ([0xee00, 0x00ee] : List Int) := validate_enum_intV _ n hvalid2
    simp only [List.mem_cons, List.not_mem_nil, or_false] at hn
    rcases hn with hn | hn <;> subst hn
    · rw [set_antiBackflow_step v snap 0xee00 [0xee, 0x00] hconv hvalid2 rfl,
        pyLookup_pyInsert_ne snap "antiBackflow" "onOff" _ (by decide), hsnap]
    · rw [set_antiBackflow_step v snap 0x00ee [0x00, 0xee] hconv hvalid2 rfl,
        pyLookup_pyInsert_ne snap "antiBackflow" "onOff" _ (by decide), hsnap]
  · intro tag p v snap b hlook hsoff hvalid hsnap hb
    obtain ⟨htag, hp⟩ := shouldBeOff_forces_antiBackflow tag p hlook hsoff
    subst htag
    subst hp
    obtain ⟨n, hconv⟩ := fromFriendly_map_intV antiBackflowParameter.converter v ⟨_, _, _, rfl⟩
    have hvalid2 : validate antiBackflowParameter.validator (FVal.intV n) = true :=
      hconv ▸ hvalid
    have hn : n ∈ ([0xee00, 0x00ee] : List Int) := validate_enum_intV _ n hvalid2
    have hoff : isInverterOff b = false := by
      rw [isInverterOff]
      exact beq_eq_false_iff_ne.mpr hb
    simp only [List.mem_cons, List.not_mem_nil, or_false] at hn
    rcases hn with hn | hn <;> subst hn
    · rw [set_antiBackflow_step v snap 0xee00 [0xee, 0x00] hconv hvalid2 rfl,
        pyLookup_pyInsert_ne snap "antiBackflow" "onOff" _ (by decide), hsnap]
      simp [hoff]
    · rw [set_antiBackflow_step v snap 0x00ee [0x00, 0xee] hconv hvalid2 rfl,
        pyLookup_pyInsert_ne snap "antiBackflow" "onOff" _ (by decide), hsnap]
      simp [hoff]
  · intro tag p v snap hlook hsoff h
    simp only [set, hlook] at h
    split at h
    · simp at h
    · split at h
      · split at h
        · simp at h
        · split at h
          · simp_all
          · exact absurd h (setBuildPayload_ne_inverterIsNotOff _ _)
      · simp at h

theorem set_shouldBeOff_spec_witness :
    set "antiBackflow" (FVal.boolV true) [] = Except.error SetErr.missingTaggedData ∧
    set "antiBackflow" (FVal.boolV true) [("onOff", [0x55])] =
        Except.error SetErr.inverterIsNotOff ∧
    set "onOff" (FVal.boolV true) [] ≠ Except.error SetErr.inverterIsNotOff :=
  ⟨set_shouldBeOff_spec.1 "antiBackflow" antiBackflowParameter (FVal.boolV true) []
      rfl rfl (by decide) rfl,
   set_shouldBeOff_spec.2.1 "antiBackflow" antiBackflowParameter (FVal.boolV true)
      [("onOff", [0x55])] [0x55] rfl rfl (by decide) rfl (by decide),
   set_shouldBeOff_spec.2.2 "onOff" onOffParameter (FVal.boolV true) [] rfl rfl⟩

/-! ## Lemmas and theorems about the transport session                      -/

theorem sendQueryGo_nonfatal_step (command : Nat) (e : AttemptEvent)
    (rest : List AttemptEvent) (conn : Bool)
    (he : nonFatalEvent command e = true) :
    sendQueryGo command (getResponseCommands command).length (e :: rest) conn =
      sendQueryGo command (getResponseCommands command).length rest conn := by
  cases e with
  | writeTimeout => rfl
  | readTimeout => rfl
  | writeReset => simp [nonFatalEvent] at he
  | readReset => simp [nonFatalEvent] at he
  | frames fs =>
    simp only [nonFatalEvent, Bool.and_eq_true, decide_eq_true_eq] at he
    obtain ⟨hlen, hmatch⟩ := he
    cases hci : checkResponseIntegrity fs command with
    | error err => rw [hci] at hmatch; simp at hmatch
    | ok b =>
      cases b with
      | true => rw [hci] at hmatch; simp at hmatch
      | false => simp [sendQueryGo, sendQueryAttempt, hlen, hci]

theorem sendQueryGo_all_nonfatal (command : Nat) :
    ∀ (events : List AttemptEvent) (conn : Bool),
      (∀ e ∈ events, nonFatalEvent command e = true) →
      sendQueryGo command (getResponseCommands command).length events conn =
        (Except.error QueryErr.communicationError, conn) := by
  intro events
  induction events with
  | nil => intro conn _; rfl
  | cons e rest ih =>
    intro conn hall
    rw [sendQueryGo_nonfatal_step command e rest conn (hall e (List.mem_cons_self e rest))]
    exact ih conn (fun x hx => hall x (List.mem_cons_of_mem e hx))

theorem sendQueryGo_reset (command : Nat) (e : AttemptEvent)
    (hres : e = AttemptEvent.writeReset ∨ e = AttemptEvent.readReset) :
    ∀ (pre t : List AttemptEvent) (conn : Bool),
      (∀ x ∈ pre, nonFatalEvent command x = true) →
      sendQueryGo command (getResponseCommands command).length (pre ++ e :: t) conn =
        (Except.error QueryErr.connectionReset, false) := by
  intro pre
  induction pre with
  | nil =>
    intro t conn _
    rcases hres with h | h <;> subst h <;> rfl
  | cons x pre ih =>
    intro t conn hall
    rw [List.cons_append,
      sendQueryGo_nonfatal_step command x _ conn (hall x (List.mem_cons_self x pre))]
    exact ih t conn (fun y hy => hall y (List.mem_cons_of_mem x hy))

/-- C5: on a connected session, when each of the QUERY_ATTEMPTS (5) attempts
fails with a send timeout, a receive timeout or a response-integrity
failure, sendQuery raises CommunicationError and the connected flag of the
session is still true afterwards. -/
theorem sendQuery_exhausted_attempts (command : Nat) (payload : Bytes)
    (events : List AttemptEvent) (s : Session)
    (hconn : s.connected = true) (hc : command < 256) (hp : payload.length ≤ 255)
    (hlen : events.length = QUERY_ATTEMPTS)
    (hfail : ∀ e ∈ events, nonFatalEvent command e = true) :
    (sendQuery command payload events s).1 = Except.error QueryErr.communicationError ∧
      (sendQuery command payload events s).2.connected = true := by
  obtain ⟨f, hf⟩ : ∃ f, generateRequest command payload = some f :=
    ⟨_, generateRequest_eq command payload hc (by omega)⟩
  have htake : events.take QUERY_ATTEMPTS = events := List.take_of_length_le (by omega)
  simp only [sendQuery, hconn, if_true, hf, htake]
  rw [sendQueryGo_all_nonfatal command events true hfail]
  simp

theorem sendQuery_exhausted_attempts_witness :
    (sendQuery 0x98 [] (List.replicate 5 AttemptEvent.writeTimeout) ⟨true, 0⟩).1 =
        Except.error QueryErr.communicationError ∧
      (sendQuery 0x98 [] (List.replicate 5 AttemptEvent.writeTimeout)
        ⟨true, 0⟩).2.connected = true :=
  sendQuery_exhausted_attempts 0x98 [] (List.replicate 5 AttemptEvent.writeTimeout)
    ⟨true, 0⟩ rfl (by norm_num) (by norm_num) (by rfl) (by decide)

/-- C6: within sendQuery a connection reset during frame write or response
read is immediately fatal: after any prefix of non-fatal attempt failures a
reset event makes sendQuery raise ConnectionResetError with the connected
flag cleared, irrespective of the remaining attempt budget; by contrast a
send timeout, receive timeout or integrity failure leaves the connected flag
untouched and makes the retry loop move on to the next attempt instead of
propagating. -/
theorem sendQuery_reset_fatal_nonfatal_retry (command : Nat) :
    (∀ (payload : Bytes) (pre t : List AttemptEvent) (e : AttemptEvent) (s : Session),
      s.connected = true → command < 256 → payload.length ≤ 255 →
      pre.length < QUERY_ATTEMPTS →
      (∀ x ∈ pre, nonFatalEvent command x = true) →
      (e = AttemptEvent.writeReset ∨ e = AttemptEvent.readReset) →
      (sendQuery command payload (pre ++ e :: t) s).1 =
          Except.error QueryErr.connectionReset ∧
        (sendQuery command payload (pre ++ e :: t) s).2.connected = false) ∧
    (∀ (e : AttemptEvent) (rest : List AttemptEvent) (conn : Bool),
      nonFatalEvent command e = true →
      sendQueryGo command (getResponseCommands command).length (e :: rest) conn =
        sendQueryGo command (getResponseCommands command).length rest conn) := by
  constructor
  · intro payload pre t e s hconn hc hp hpre hprefail hres
    obtain ⟨f, hf⟩ : ∃ f, generateRequest command payload = some f :=
      ⟨_, generateRequest_eq command payload hc (by omega)⟩
    obtain ⟨k, hk⟩ : ∃ k, QUERY_ATTEMPTS - pre.length = k + 1 :=
      ⟨QUERY_ATTEMPTS - pre.length - 1, by simp only [QUERY_ATTEMPTS] at hpre ⊢; omega⟩
    have htake : (pre ++ e :: t).take QUERY_ATTEMPTS = pre ++ e :: t.take k := by
      rw [List.take_append_eq_append_take, List.take_of_length_le (by omega), hk,
        List.take_succ_cons]
    simp only [sendQuery, hconn, if_true, hf, htake]
    rw [sendQueryGo_reset command e hres pre (t.take k) true hprefail]
    simp
  · intro e rest conn he
    exact sendQueryGo_nonfatal_step command e rest conn he

theorem sendQuery_reset_fatal_nonfatal_retry_witness :
    ((sendQuery 0x98 [] ([AttemptEvent.writeTimeout] ++ AttemptEvent.writeReset :: [])
          ⟨true, 0⟩).1 = Except.error QueryErr.connectionReset ∧
      (sendQuery 0x98 [] ([AttemptEvent.writeTimeout] ++ AttemptEvent.writeReset :: [])
          ⟨true, 0⟩).2.connected = false) ∧
      sendQueryGo 0x98 (getResponseCommands 0x98).length (AttemptEvent.readTimeout :: []) true =
        sendQueryGo 0x98 (getResponseCommands 0x98).length [] true :=
  ⟨(sendQuery_reset_fatal_nonfatal_retry 0x98).1 [] [AttemptEvent.writeTimeout] []
      AttemptEvent.writeReset ⟨true, 0⟩ rfl (by norm_num) (by norm_num)
      (by norm_num [QUERY_ATTEMPTS]) (by decide) (Or.inl rfl),
   (sendQuery_reset_fatal_nonfatal_retry 0x98).2 AttemptEvent.readTimeout [] true rfl⟩

theorem generateRequest_payload_length_witness :
    (∃ frame, generateRequest 0x98 [5] = some frame ∧ frame.getD 6 0 = 1) ∧
      generateRequest 0x98 (List.replicate 256 7) = none :=
  ⟨(generateRequest_payload_length 0x98 [5] (by norm_num)).1 (by norm_num),
   (generateRequest_payload_length 0x98 (List.replicate 256 7) (by norm_num)).2
     (by rw [List.length_replicate]; norm_num)⟩

end Sermatec
